import Mathlib

/-!
Verification development for the soft-macro simulated-annealing core
(`mpl2/src/SACoreSoftMacro.h`) of the OpenROAD macro placer.

The repository ships only the class declaration `SACoreSoftMacro.h`; the
method bodies, the base class `SimulatedAnnealingCore` and the geometry
header `object.h` are not part of the source tree.  Definitions taken
directly from the header (the in-class member initializers, the inline
body of `SetBlockages`) are embedded as written; everything else is
modelled from the specification and marked `Modelled from the spec:` in
its doc comment.  All machine floats are embedded as rationals (ℚ), so
arithmetic is exact.
-/

namespace Mpl

/-- Modelled from the spec: an axis-aligned rectangle (`Rect` from the
missing `object.h`), given by its lower-left and upper-right corners. -/
structure Rect where
  lx : ℚ
  ly : ℚ
  ux : ℚ
  uy : ℚ
deriving DecidableEq

/-- Modelled from the spec: a soft macro (`SoftMacro` from the missing
`object.h`) — a placeable rectangle at position `(x, y)` backed by a
discrete list of `(width, height)` candidate pairs; the current shape is
the entry of that list selected by `shapeId`. -/
structure SoftMacro where
  x : ℚ
  y : ℚ
  shapes : List (ℚ × ℚ)
  shapeId : Nat
deriving DecidableEq

/-- The currently selected `(width, height)` candidate pair of a soft
macro (defaults to `(0, 0)` when the index is out of range). -/
def SoftMacro.currentShape (m : SoftMacro) : ℚ × ℚ :=
  m.shapes.getD m.shapeId (0, 0)

/-- Current width of a soft macro. -/
def SoftMacro.width (m : SoftMacro) : ℚ :=
  m.currentShape.1

/-- Current height of a soft macro. -/
def SoftMacro.height (m : SoftMacro) : ℚ :=
  m.currentShape.2

/-- Current area of a soft macro. -/
def SoftMacro.area (m : SoftMacro) : ℚ :=
  m.width * m.height

/-- Well-formedness of a soft macro with required area `A`: the candidate
shape list is nonempty, the current shape index is in range, and every
candidate `(width, height)` pair has product `A`. -/
def SoftMacro.wfShapes (A : ℚ) (m : SoftMacro) : Prop :=
  m.shapes ≠ [] ∧ m.shapeId < m.shapes.length ∧ ∀ p ∈ m.shapes, p.1 * p.2 = A

/-- Modelled from the spec: `Resize` selects a different `(width, height)`
candidate pair from the macro's equal-area list; the request index is
reduced modulo the list length so the selection always lands in the list. -/
def SoftMacro.selectShape (m : SoftMacro) (i : Nat) : SoftMacro :=
  if m.shapes.length = 0 then m else { m with shapeId := i % m.shapes.length }

/-- The state of a `SACoreSoftMacro` engine.  The fields named in
`SACoreSoftMacro.h` keep their C++ names (trailing underscore included);
the remaining fields are modelled from the spec as the base-class
(`SimulatedAnnealingCore`) state: outline, macro list, sequence pair,
nets/guides/fences, the eight raw penalty terms with their saved
pre-perturbation values and normalization constants. -/
structure SACoreSoftMacro where
  outline_width_ : ℚ
  outline_height_ : ℚ
  macros_ : List SoftMacro
  pos_seq_ : List Nat
  neg_seq_ : List Nat
  nets_ : List (Nat × Nat × ℚ)
  guides_ : List (Nat × Rect)
  fences_ : List (Nat × Rect)
  blockages_ : List Rect
  area_weight_ : ℚ
  outline_weight_ : ℚ
  wirelength_weight_ : ℚ
  guidance_weight_ : ℚ
  fence_weight_ : ℚ
  boundary_weight_ : ℚ
  macro_blockage_weight_ : ℚ
  notch_weight_ : ℚ
  notch_h_th_ : ℚ
  notch_v_th_ : ℚ
  adjust_h_th_ : ℚ
  adjust_v_th_ : ℚ
  resize_prob_ : ℚ
  area_penalty_ : ℚ
  outline_penalty_ : ℚ
  wirelength_ : ℚ
  guidance_penalty_ : ℚ
  fence_penalty_ : ℚ
  boundary_penalty_ : ℚ
  notch_penalty_ : ℚ
  macro_blockage_penalty_ : ℚ
  pre_macros_ : List SoftMacro
  pre_pos_seq_ : List Nat
  pre_neg_seq_ : List Nat
  pre_area_penalty_ : ℚ
  pre_outline_penalty_ : ℚ
  pre_wirelength_ : ℚ
  pre_guidance_penalty_ : ℚ
  pre_fence_penalty_ : ℚ
  pre_boundary_penalty_ : ℚ
  pre_notch_penalty_ : ℚ
  pre_macro_blockage_penalty_ : ℚ
  norm_area_penalty_ : ℚ
  norm_outline_penalty_ : ℚ
  norm_wirelength_ : ℚ
  norm_guidance_penalty_ : ℚ
  norm_fence_penalty_ : ℚ
  norm_boundary_penalty_ : ℚ
  norm_notch_penalty_ : ℚ
  norm_macro_blockage_penalty_ : ℚ

/-- The default constructor `SACoreSoftMacro(){}`:  the members that carry
in-class initializers in the header (`boundary_weight_`,
`macro_blockage_weight_`, the three current penalties, the three
`pre_` penalties, the three `norm_` penalties, `resize_prob_`) take the
value `0.0` written there.  The remaining members are indeterminate in
C++ (no initializer); the model value-initializes them to zero / empty,
and no theorem below depends on their default values. -/
def defaultSACoreSoftMacro : SACoreSoftMacro where
  outline_width_ := 0
  outline_height_ := 0
  macros_ := []
  pos_seq_ := []
  neg_seq_ := []
  nets_ := []
  guides_ := []
  fences_ := []
  blockages_ := []
  area_weight_ := 0
  outline_weight_ := 0
  wirelength_weight_ := 0
  guidance_weight_ := 0
  fence_weight_ := 0
  boundary_weight_ := 0
  macro_blockage_weight_ := 0
  notch_weight_ := 0
  notch_h_th_ := 0
  notch_v_th_ := 0
  adjust_h_th_ := 0
  adjust_v_th_ := 0
  resize_prob_ := 0
  area_penalty_ := 0
  outline_penalty_ := 0
  wirelength_ := 0
  guidance_penalty_ := 0
  fence_penalty_ := 0
  boundary_penalty_ := 0
  notch_penalty_ := 0
  macro_blockage_penalty_ := 0
  pre_macros_ := []
  pre_pos_seq_ := []
  pre_neg_seq_ := []
  pre_area_penalty_ := 0
  pre_outline_penalty_ := 0
  pre_wirelength_ := 0
  pre_guidance_penalty_ := 0
  pre_fence_penalty_ := 0
  pre_boundary_penalty_ := 0
  pre_notch_penalty_ := 0
  pre_macro_blockage_penalty_ := 0
  norm_area_penalty_ := 0
  norm_outline_penalty_ := 0
  norm_wirelength_ := 0
  norm_guidance_penalty_ := 0
  norm_fence_penalty_ := 0
  norm_boundary_penalty_ := 0
  norm_notch_penalty_ := 0
  norm_macro_blockage_penalty_ := 0

/-- The inline body from the header, verbatim:
`void SetBlockages(const std::vector<Rect>& blockages) { blockages_ = blockages; }`. -/
def SetBlockages (st : SACoreSoftMacro) (blockages : List Rect) : SACoreSoftMacro :=
  { st with blockages_ := blockages }

/-- Area of the intersection of two axis-aligned rectangles (zero when
they do not overlap). -/
def overlapArea (a b : Rect) : ℚ :=
  max 0 (min a.ux b.ux - max a.lx b.lx) * max 0 (min a.uy b.uy - max a.ly b.ly)

/-- The rectangle currently occupied by a soft macro. -/
def SoftMacro.toRect (m : SoftMacro) : Rect :=
  ⟨m.x, m.y, m.x + m.width, m.y + m.height⟩

/-- Modelled from the spec: area term — total occupied area over outline
area (`Σ macro areas / outline area`). -/
def calcAreaPenalty (st : SACoreSoftMacro) : ℚ :=
  (st.macros_.map SoftMacro.area).sum / (st.outline_width_ * st.outline_height_)

/-- Modelled from the spec: outline term — `Σ max(0, macro extent beyond
outline edges)` over all macros. -/
def calcOutlinePenalty (st : SACoreSoftMacro) : ℚ :=
  (st.macros_.map (fun m =>
    max 0 (m.x + m.width - st.outline_width_)
      + max 0 (m.y + m.height - st.outline_height_))).sum

/-- Manhattan distance between the centers of two macros. -/
def centerDist (m n : SoftMacro) : ℚ :=
  |m.x + m.width / 2 - (n.x + n.width / 2)| + |m.y + m.height / 2 - (n.y + n.height / 2)|

/-- Modelled from the spec: wirelength term — net-based distance between
macro centers, weighted by connection strength. -/
def calcWirelength (st : SACoreSoftMacro) : ℚ :=
  (st.nets_.map (fun net =>
    match st.macros_[net.1]?, st.macros_[net.2.1]? with
    | some m, some n => net.2.2 * centerDist m n
    | _, _ => 0)).sum

/-- Manhattan distance of a point from a rectangle (zero when the point
lies inside it). -/
def distToRect (px py : ℚ) (r : Rect) : ℚ :=
  max 0 (r.lx - px) + max 0 (px - r.ux) + max 0 (r.ly - py) + max 0 (py - r.uy)

/-- Modelled from the spec: guidance term — distance of each guided
macro's center from its guidance region. -/
def calcGuidancePenalty (st : SACoreSoftMacro) : ℚ :=
  (st.guides_.map (fun g =>
    match st.macros_[g.1]? with
    | some m => distToRect (m.x + m.width / 2) (m.y + m.height / 2) g.2
    | none => 0)).sum

/-- Modelled from the spec: fence term — overlap deficit between a macro
and its assigned fence rectangle. -/
def calcFencePenalty (st : SACoreSoftMacro) : ℚ :=
  (st.fences_.map (fun f =>
    match st.macros_[f.1]? with
    | some m => max 0 (m.area - overlapArea m.toRect f.2)
    | none => 0)).sum

/-- Modelled from the spec: boundary term — distance of each macro from
the nearest outline edge (clamped at zero). -/
def calcBoundaryPenalty (st : SACoreSoftMacro) : ℚ :=
  (st.macros_.map (fun m =>
    max 0 (min (min m.x m.y)
      (min (st.outline_width_ - (m.x + m.width))
           (st.outline_height_ - (m.y + m.height)))))).sum

/-- Modelled from the spec: macro-blockage term — `Σ overlap area across
all (macro, blockage) pairs`. -/
def calcMacroBlockagePenalty (st : SACoreSoftMacro) : ℚ :=
  (st.macros_.map (fun m =>
    (st.blockages_.map (fun b => overlapArea m.toRect b)).sum)).sum

/-- Modelled from the spec: notch term — unused strips narrower than the
`notch_h_th_` / `notch_v_th_` thresholds between a macro and the outline
edge.  The spec itself (Design Notes) states that the exact grid-sweep
tie-breaking rule of the source is ambiguous; the model fixes one
deterministic rule, and no claim below depends on the particular value. -/
def calcNotchPenalty (st : SACoreSoftMacro) : ℚ :=
  (st.macros_.map (fun m =>
    (if 0 < st.outline_width_ - (m.x + m.width) ∧
        st.outline_width_ - (m.x + m.width) < st.notch_h_th_ then
       (st.outline_width_ - (m.x + m.width)) * m.height else 0)
    + (if 0 < st.outline_height_ - (m.y + m.height) ∧
          st.outline_height_ - (m.y + m.height) < st.notch_v_th_ then
        (st.outline_height_ - (m.y + m.height)) * m.width else 0))).sum

/-- Modelled from the spec: `CalPenalty` recomputes every raw penalty
term from the current layout snapshot (a pure function of the macro
state).  The normalization constants and the saved `pre_` values are not
touched. -/
def CalPenalty (st : SACoreSoftMacro) : SACoreSoftMacro :=
  { st with
    area_penalty_ := calcAreaPenalty st
    outline_penalty_ := calcOutlinePenalty st
    wirelength_ := calcWirelength st
    guidance_penalty_ := calcGuidancePenalty st
    fence_penalty_ := calcFencePenalty st
    boundary_penalty_ := calcBoundaryPenalty st
    notch_penalty_ := calcNotchPenalty st
    macro_blockage_penalty_ := calcMacroBlockagePenalty st }

/-- Modelled from the spec: a term's first observed raw value becomes its
normalization divisor; when that raw value is exactly zero the constant
defaults to `1` rather than producing a zero divisor. -/
def setNorm (raw : ℚ) : ℚ :=
  if raw = 0 then 1 else raw

/-- Modelled from the spec: fix every normalization constant from the
currently observed raw penalty values (first-observation rule, with the
zero-defaults-to-one edge case of `setNorm`). -/
def SetNormValues (st : SACoreSoftMacro) : SACoreSoftMacro :=
  { st with
    norm_area_penalty_ := setNorm st.area_penalty_
    norm_outline_penalty_ := setNorm st.outline_penalty_
    norm_wirelength_ := setNorm st.wirelength_
    norm_guidance_penalty_ := setNorm st.guidance_penalty_
    norm_fence_penalty_ := setNorm st.fence_penalty_
    norm_boundary_penalty_ := setNorm st.boundary_penalty_
    norm_notch_penalty_ := setNorm st.notch_penalty_
    norm_macro_blockage_penalty_ := setNorm st.macro_blockage_penalty_ }

/-- Modelled from the spec: `CalNormCost` — the normalized weighted sum
`Σ (weight_i × raw_i / norm_i)` over the eight penalty terms. -/
def CalNormCost (st : SACoreSoftMacro) : ℚ :=
  st.area_weight_ * st.area_penalty_ / st.norm_area_penalty_
    + st.outline_weight_ * st.outline_penalty_ / st.norm_outline_penalty_
    + st.wirelength_weight_ * st.wirelength_ / st.norm_wirelength_
    + st.guidance_weight_ * st.guidance_penalty_ / st.norm_guidance_penalty_
    + st.fence_weight_ * st.fence_penalty_ / st.norm_fence_penalty_
    + st.boundary_weight_ * st.boundary_penalty_ / st.norm_boundary_penalty_
    + st.macro_blockage_weight_ * st.macro_blockage_penalty_ / st.norm_macro_blockage_penalty_
    + st.notch_weight_ * st.notch_penalty_ / st.norm_notch_penalty_

/-- Scale every per-term weight of the engine by the same constant `s`. -/
def scaleWeights (s : ℚ) (st : SACoreSoftMacro) : SACoreSoftMacro :=
  { st with
    area_weight_ := s * st.area_weight_
    outline_weight_ := s * st.outline_weight_
    wirelength_weight_ := s * st.wirelength_weight_
    guidance_weight_ := s * st.guidance_weight_
    fence_weight_ := s * st.fence_weight_
    boundary_weight_ := s * st.boundary_weight_
    macro_blockage_weight_ := s * st.macro_blockage_weight_
    notch_weight_ := s * st.notch_weight_ }

/-- Swap the entries at positions `i` and `j` of a list (identity when
either index is out of range). -/
def swapL {α : Type} (l : List α) (i j : Nat) : List α :=
  match l[i]?, l[j]? with
  | some a, some b => (l.set i b).set j a
  | _, _ => l

/-- Apply `SoftMacro.selectShape` to the macro at position `id` of the
macro list (identity when the index is out of range). -/
def setShape (ms : List SoftMacro) (id s : Nat) : List SoftMacro :=
  match ms[id]? with
  | some m => ms.set id (m.selectShape s)
  | none => ms

/-- Modelled from the spec: the discrete menu of reversible edit
operations — single sequence-pair swap (positive or negative sequence),
double swap, exchange, resize and shrink — with the indices the random
selection chose. -/
inductive SAAction where
  | posSwap (i j : Nat)
  | negSwap (i j : Nat)
  | doubleSwap (i j i2 j2 : Nat)
  | exchangeAct (i j : Nat)
  | resizeAct (id s : Nat)
  | shrinkAct (id : Nat)
deriving DecidableEq

/-- Modelled from the spec: `Resize` — replace the shape of soft macro
`id` by another candidate pair of its equal-area list. -/
def Resize (st : SACoreSoftMacro) (id s : Nat) : SACoreSoftMacro :=
  { st with macros_ := setShape st.macros_ id s }

/-- Modelled from the spec: `Shrink` — move soft macro `id` toward a
smaller feasible shape; the model deterministically selects the first
candidate of the list. -/
def Shrink (st : SACoreSoftMacro) (id : Nat) : SACoreSoftMacro :=
  { st with macros_ := setShape st.macros_ id 0 }

/-- Modelled from the spec: apply one chosen action to the layout state
(sequence-pair order for the swap moves, macro identity for exchange,
shape index for resize/shrink). -/
def applyAction (a : SAAction) (st : SACoreSoftMacro) : SACoreSoftMacro :=
  match a with
  | .posSwap i j => { st with pos_seq_ := swapL st.pos_seq_ i j }
  | .negSwap i j => { st with neg_seq_ := swapL st.neg_seq_ i j }
  | .doubleSwap i j i2 j2 =>
      { st with pos_seq_ := swapL st.pos_seq_ i j, neg_seq_ := swapL st.neg_seq_ i2 j2 }
  | .exchangeAct i j => { st with macros_ := swapL st.macros_ i j }
  | .resizeAct id s => Resize st id s
  | .shrinkAct id => Shrink st id

/-- Modelled from the spec: before an action is applied, record enough
information to undo it exactly — the prior macro list (positions and
shape indices), the prior sequence-pair orders, and the prior value of
every penalty term. -/
def savePre (st : SACoreSoftMacro) : SACoreSoftMacro :=
  { st with
    pre_macros_ := st.macros_
    pre_pos_seq_ := st.pos_seq_
    pre_neg_seq_ := st.neg_seq_
    pre_area_penalty_ := st.area_penalty_
    pre_outline_penalty_ := st.outline_penalty_
    pre_wirelength_ := st.wirelength_
    pre_guidance_penalty_ := st.guidance_penalty_
    pre_fence_penalty_ := st.fence_penalty_
    pre_boundary_penalty_ := st.boundary_penalty_
    pre_notch_penalty_ := st.notch_penalty_
    pre_macro_blockage_penalty_ := st.macro_blockage_penalty_ }

/-- Modelled from the spec: `Restore` — roll the rejected move back by
writing the recorded pre-action macro list, sequence pair and penalty
values over the current ones, without recomputing the layout. -/
def Restore (st : SACoreSoftMacro) : SACoreSoftMacro :=
  { st with
    macros_ := st.pre_macros_
    pos_seq_ := st.pre_pos_seq_
    neg_seq_ := st.pre_neg_seq_
    area_penalty_ := st.pre_area_penalty_
    outline_penalty_ := st.pre_outline_penalty_
    wirelength_ := st.pre_wirelength_
    guidance_penalty_ := st.pre_guidance_penalty_
    fence_penalty_ := st.pre_fence_penalty_
    boundary_penalty_ := st.pre_boundary_penalty_
    notch_penalty_ := st.pre_notch_penalty_
    macro_blockage_penalty_ := st.pre_macro_blockage_penalty_ }

/-- Assign x-coordinates along the positive sequence: each macro in
sequence order starts where the previous one ended. -/
def packX : List Nat → ℚ → List SoftMacro → List SoftMacro
  | [], _, ms => ms
  | id :: rest, off, ms =>
    match ms[id]? with
    | some m => packX rest (off + m.width) (ms.set id { m with x := off })
    | none => packX rest off ms

/-- Assign y-coordinates along the negative sequence: each macro in
sequence order starts where the previous one ended. -/
def packY : List Nat → ℚ → List SoftMacro → List SoftMacro
  | [], _, ms => ms
  | id :: rest, off, ms =>
    match ms[id]? with
    | some m => packY rest (off + m.height) (ms.set id { m with y := off })
    | none => packY rest off ms

/-- Modelled from the spec: recompute macro positions from the sequence
pair after an action.  The exact sequence-pair packing algorithm is not
under `src/`; the model uses a deterministic sweep that stacks macros in
positive-sequence order horizontally and negative-sequence order
vertically, which is a pure function of the sequence pair and shapes. -/
def PackFloorplan (st : SACoreSoftMacro) : SACoreSoftMacro :=
  { st with macros_ := packY st.neg_seq_ 0 (packX st.pos_seq_ 0 st.macros_) }

/-- Modelled from the spec: `Perturb` — record the undo information,
apply the chosen action, recompute the layout coordinates and re-evaluate
every penalty term. -/
def Perturb (st : SACoreSoftMacro) (a : SAAction) : SACoreSoftMacro :=
  CalPenalty (PackFloorplan (applyAction a (savePre st)))

/-- Modelled from the spec: the Metropolis-style acceptance rule with
cost difference `dC`, temperature `T` and a uniform draw `r` in `[0,1)`.
`expFn` stands for the real exponential `p ↦ exp p` (not representable
over ℚ), so acceptance for an uphill move is `r < expFn (-dC / T)`. -/
def acceptMove (expFn : ℚ → ℚ) (dC T r : ℚ) : Bool :=
  if dC ≤ 0 then true else decide (r < expFn (-dC / T))

/-- Modelled from the spec: one perturb / evaluate / accept-or-restore
trial of the annealing loop.  Returns the acceptance decision and the
resulting state. -/
def TrialStep (expFn : ℚ → ℚ) (a : SAAction) (T r : ℚ) (st : SACoreSoftMacro) :
    Bool × SACoreSoftMacro :=
  let st2 := Perturb st a
  let dC := CalNormCost st2 - CalNormCost st
  let acc := acceptMove expFn dC T r
  (acc, if acc then st2 else Restore st2)

/-- The argument list of the full `SACoreSoftMacro` constructor, in the
order of the header: outline, macros, the eight penalty weights, the two
notch thresholds, the five action probabilities, and the Fast-SA
hyperparameters with the RNG seed. -/
structure SAParams where
  outline_width : ℚ
  outline_height : ℚ
  macros : List SoftMacro
  area_weight : ℚ
  outline_weight : ℚ
  wirelength_weight : ℚ
  guidance_weight : ℚ
  fence_weight : ℚ
  boundary_weight : ℚ
  macro_blockage_weight : ℚ
  notch_weight : ℚ
  notch_h_threshold : ℚ
  notch_v_threshold : ℚ
  pos_swap_prob : ℚ
  neg_swap_prob : ℚ
  double_swap_prob : ℚ
  exchange_prob : ℚ
  resize_prob : ℚ
  init_prob : ℚ
  max_num_step : Nat
  num_perturb_per_step : Nat
  k : Nat
  c : Nat
  seed : Nat

/-- The list of the eight per-term weights of a constructor argument
pack, in header order. -/
def weightList (p : SAParams) : List ℚ :=
  [p.area_weight, p.outline_weight, p.wirelength_weight, p.guidance_weight,
   p.fence_weight, p.boundary_weight, p.macro_blockage_weight, p.notch_weight]

/-- Whether a candidate shape list is nonempty and every pair has the
same area as the first one. -/
def consistentShapes (m : SoftMacro) : Bool :=
  match m.shapes with
  | [] => false
  | p :: rest => rest.all (fun q => q.1 * q.2 == p.1 * p.2)

/-- Modelled from the spec: construction fails fast with a descriptive
error exactly for structurally impossible inputs — a non-positive
outline dimension, a soft macro with an empty or area-inconsistent
candidate list, or a negative weight.  A merely infeasible configuration
(total macro area exceeding the outline area) is not checked here; it
surfaces later as a high outline penalty. -/
def ValidateCtor (p : SAParams) : Except String Unit :=
  if p.outline_width ≤ 0 ∨ p.outline_height ≤ 0 then
    .error "outline dimensions must be positive"
  else if p.macros.any (fun m => m.shapes.isEmpty) then
    .error "soft macro has an empty candidate shape list"
  else if p.macros.any (fun m => !consistentShapes m) then
    .error "soft macro has candidate shapes of inconsistent area"
  else if (weightList p).any (fun w => decide (w < 0)) then
    .error "penalty weights must be non-negative"
  else
    .ok ()

/-- Modelled from the spec: the engine state a freshly constructed
`SACoreSoftMacro` holds before `Initialize` — the constructor arguments
copied into the corresponding members, identity sequence pair, no
blockages/nets/guides/fences yet, and zero penalty state. -/
def initState (p : SAParams) : SACoreSoftMacro :=
  { defaultSACoreSoftMacro with
    outline_width_ := p.outline_width
    outline_height_ := p.outline_height
    macros_ := p.macros
    pos_seq_ := List.range p.macros.length
    neg_seq_ := List.range p.macros.length
    pre_macros_ := p.macros
    pre_pos_seq_ := List.range p.macros.length
    pre_neg_seq_ := List.range p.macros.length
    area_weight_ := p.area_weight
    outline_weight_ := p.outline_weight
    wirelength_weight_ := p.wirelength_weight
    guidance_weight_ := p.guidance_weight
    fence_weight_ := p.fence_weight
    boundary_weight_ := p.boundary_weight
    macro_blockage_weight_ := p.macro_blockage_weight
    notch_weight_ := p.notch_weight
    notch_h_th_ := p.notch_h_threshold
    notch_v_th_ := p.notch_v_threshold
    resize_prob_ := p.resize_prob }

/-- Modelled from the spec: `Initialize` — build the initial packing,
evaluate every penalty term once, and fix the normalization constants
from these first observations. -/
def Initialize (st : SACoreSoftMacro) : SACoreSoftMacro :=
  SetNormValues (CalPenalty (PackFloorplan st))

/-- Modelled from the spec: the deterministic pseudo-random generator
advancing the seed (a linear congruential step modulo 2^31). -/
def nextRand (g : Nat) : Nat :=
  (g * 1103515245 + 12345) % 2147483648

/-- The uniform fraction in `[0,1)` a generator state denotes. -/
def randFrac (g : Nat) : ℚ :=
  (g % 2147483648 : Nat) / 2147483648

/-- Modelled from the spec: select the next action from the
cumulative-probability table over `pos_swap_prob`, `neg_swap_prob`,
`double_swap_prob`, `exchange_prob` and `resize_prob` (the remainder
selecting shrink), drawing the action indices from subsequent generator
states.  Returns the action and the advanced generator. -/
def chooseAction (p : SAParams) (n : Nat) (g : Nat) : SAAction × Nat :=
  let g1 := nextRand g
  let r := randFrac g1
  let g2 := nextRand g1
  let g3 := nextRand g2
  let g4 := nextRand g3
  let g5 := nextRand g4
  let i := g2 % max n 1
  let j := g3 % max n 1
  let i2 := g4 % max n 1
  let j2 := g5 % max n 1
  if r < p.pos_swap_prob then (.posSwap i j, g5)
  else if r < p.pos_swap_prob + p.neg_swap_prob then (.negSwap i j, g5)
  else if r < p.pos_swap_prob + p.neg_swap_prob + p.double_swap_prob then
    (.doubleSwap i j i2 j2, g5)
  else if r < p.pos_swap_prob + p.neg_swap_prob + p.double_swap_prob + p.exchange_prob then
    (.exchangeAct i j, g5)
  else if r < p.pos_swap_prob + p.neg_swap_prob + p.double_swap_prob + p.exchange_prob
      + p.resize_prob then
    (.resizeAct i j2, g5)
  else (.shrinkAct i, g5)

/-- Modelled from the spec: the initial temperature is derived from
`init_prob`; the exact derivation (through a logarithm) is not
representable over ℚ, so the model fixes a positive decreasing function
of `init_prob`. -/
def initTemperature (p : SAParams) : ℚ :=
  1 / p.init_prob

/-- Modelled from the spec: the Fast-SA cooling schedule — temperature
decreases monotonically with the step index, shaped by the constants
`k` and `c`. -/
def temperature (p : SAParams) (step : Nat) : ℚ :=
  initTemperature p / (1 + (p.k + p.c * step) * step)

/-- The running state of one annealing run: the engine state, the
generator state, the best layout and cost seen so far, and the cost
trajectory (most recent first). -/
structure RunState where
  st : SACoreSoftMacro
  rng : Nat
  best_macros : List SoftMacro
  best_cost : ℚ
  trajectory : List ℚ

/-- Modelled from the spec: one trial — draw an action, draw the
acceptance fraction, run `TrialStep`, track the best layout, and append
the resulting cost to the trajectory. -/
def doTrial (expFn : ℚ → ℚ) (p : SAParams) (T : ℚ) (rs : RunState) : RunState :=
  let ag := chooseAction p rs.st.macros_.length rs.rng
  let g2 := nextRand ag.2
  let r := randFrac g2
  let bs := TrialStep expFn ag.1 T r rs.st
  let cost := CalNormCost bs.2
  { st := bs.2
    rng := g2
    best_macros := if cost < rs.best_cost then bs.2.macros_ else rs.best_macros
    best_cost := min rs.best_cost cost
    trajectory := cost :: rs.trajectory }

/-- Modelled from the spec: one temperature level —
`num_perturb_per_step` trials at fixed temperature `T`. -/
def doLevel (expFn : ℚ → ℚ) (p : SAParams) (T : ℚ) : Nat → RunState → RunState
  | 0, rs => rs
  | n + 1, rs => doLevel expFn p T n (doTrial expFn p T rs)

/-- Modelled from the spec: the outer loop over the remaining
temperature levels (`n` counts down from `max_num_step`). -/
def doSteps (expFn : ℚ → ℚ) (p : SAParams) : Nat → RunState → RunState
  | 0, rs => rs
  | n + 1, rs =>
    doSteps expFn p n
      (doLevel expFn p (temperature p (p.max_num_step - (n + 1))) p.num_perturb_per_step rs)

/-- Modelled from the spec: one complete annealing run — `Initialize`,
then exactly `max_num_step` temperature levels of
`num_perturb_per_step` trials each, returning the final state, the best
layout found and the full cost trajectory.  The run is a total function
of the constructor arguments (and of `expFn`, the model of the real
exponential). -/
def Run (expFn : ℚ → ℚ) (p : SAParams) : RunState :=
  let st0 := Initialize (initState p)
  doSteps expFn p p.max_num_step
    ⟨st0, p.seed, st0.macros_, CalNormCost st0, []⟩

/-- A concrete soft macro with required area 400 and candidate shapes
`{(20,20),(10,40),(40,10)}` (the scenario of the spec), used as a
concrete witness input. -/
def mEx : SoftMacro :=
  ⟨0, 0, [(20, 20), (10, 40), (40, 10)], 0⟩

/-- A concrete, structurally valid constructor argument pack used as a
concrete witness input. -/
def pEx : SAParams :=
  { outline_width := 100
    outline_height := 100
    macros := [mEx]
    area_weight := 1
    outline_weight := 1
    wirelength_weight := 0
    guidance_weight := 0
    fence_weight := 0
    boundary_weight := 0
    macro_blockage_weight := 0
    notch_weight := 0
    notch_h_threshold := 10
    notch_v_threshold := 10
    pos_swap_prob := 3 / 10
    neg_swap_prob := 3 / 10
    double_swap_prob := 1 / 10
    exchange_prob := 1 / 10
    resize_prob := 1 / 10
    init_prob := 9 / 10
    max_num_step := 2
    num_perturb_per_step := 3
    k := 1
    c := 1
    seed := 7 }

/-- Projection lemmas: `savePre` copies each current value into its
`pre_` slot. -/
@[simp] lemma savePre_pre_macros (st : SACoreSoftMacro) : (savePre st).pre_macros_ = st.macros_ := rfl
@[simp] lemma savePre_pre_pos_seq (st : SACoreSoftMacro) : (savePre st).pre_pos_seq_ = st.pos_seq_ := rfl
@[simp] lemma savePre_pre_neg_seq (st : SACoreSoftMacro) : (savePre st).pre_neg_seq_ = st.neg_seq_ := rfl
@[simp] lemma savePre_pre_area_penalty (st : SACoreSoftMacro) : (savePre st).pre_area_penalty_ = st.area_penalty_ := rfl
@[simp] lemma savePre_pre_outline_penalty (st : SACoreSoftMacro) : (savePre st).pre_outline_penalty_ = st.outline_penalty_ := rfl
@[simp] lemma savePre_pre_wirelength (st : SACoreSoftMacro) : (savePre st).pre_wirelength_ = st.wirelength_ := rfl
@[simp] lemma savePre_pre_guidance_penalty (st : SACoreSoftMacro) : (savePre st).pre_guidance_penalty_ = st.guidance_penalty_ := rfl
@[simp] lemma savePre_pre_fence_penalty (st : SACoreSoftMacro) : (savePre st).pre_fence_penalty_ = st.fence_penalty_ := rfl
@[simp] lemma savePre_pre_boundary_penalty (st : SACoreSoftMacro) : (savePre st).pre_boundary_penalty_ = st.boundary_penalty_ := rfl
@[simp] lemma savePre_pre_notch_penalty (st : SACoreSoftMacro) : (savePre st).pre_notch_penalty_ = st.notch_penalty_ := rfl
@[simp] lemma savePre_pre_macro_blockage_penalty (st : SACoreSoftMacro) : (savePre st).pre_macro_blockage_penalty_ = st.macro_blockage_penalty_ := rfl

/-- Projection lemmas: applying an action never touches the recorded
`pre_` values. -/
@[simp] lemma applyAction_pre_macros (a : SAAction) (st : SACoreSoftMacro) : (applyAction a st).pre_macros_ = st.pre_macros_ := by cases a <;> rfl
@[simp] lemma applyAction_pre_pos_seq (a : SAAction) (st : SACoreSoftMacro) : (applyAction a st).pre_pos_seq_ = st.pre_pos_seq_ := by cases a <;> rfl
@[simp] lemma applyAction_pre_neg_seq (a : SAAction) (st : SACoreSoftMacro) : (applyAction a st).pre_neg_seq_ = st.pre_neg_seq_ := by cases a <;> rfl
@[simp] lemma applyAction_pre_area_penalty (a : SAAction) (st : SACoreSoftMacro) : (applyAction a st).pre_area_penalty_ = st.pre_area_penalty_ := by cases a <;> rfl
@[simp] lemma applyAction_pre_outline_penalty (a : SAAction) (st : SACoreSoftMacro) : (applyAction a st).pre_outline_penalty_ = st.pre_outline_penalty_ := by cases a <;> rfl
@[simp] lemma applyAction_pre_wirelength (a : SAAction) (st : SACoreSoftMacro) : (applyAction a st).pre_wirelength_ = st.pre_wirelength_ := by cases a <;> rfl
@[simp] lemma applyAction_pre_guidance_penalty (a : SAAction) (st : SACoreSoftMacro) : (applyAction a st).pre_guidance_penalty_ = st.pre_guidance_penalty_ := by cases a <;> rfl
@[simp] lemma applyAction_pre_fence_penalty (a : SAAction) (st : SACoreSoftMacro) : (applyAction a st).pre_fence_penalty_ = st.pre_fence_penalty_ := by cases a <;> rfl
@[simp] lemma applyAction_pre_boundary_penalty (a : SAAction) (st : SACoreSoftMacro) : (applyAction a st).pre_boundary_penalty_ = st.pre_boundary_penalty_ := by cases a <;> rfl
@[simp] lemma applyAction_pre_notch_penalty (a : SAAction) (st : SACoreSoftMacro) : (applyAction a st).pre_notch_penalty_ = st.pre_notch_penalty_ := by cases a <;> rfl
@[simp] lemma applyAction_pre_macro_blockage_penalty (a : SAAction) (st : SACoreSoftMacro) : (applyAction a st).pre_macro_blockage_penalty_ = st.pre_macro_blockage_penalty_ := by cases a <;> rfl

/-- Projection lemmas: repacking never touches the recorded `pre_`
values. -/
@[simp] lemma PackFloorplan_pre_macros (st : SACoreSoftMacro) : (PackFloorplan st).pre_macros_ = st.pre_macros_ := rfl
@[simp] lemma PackFloorplan_pre_pos_seq (st : SACoreSoftMacro) : (PackFloorplan st).pre_pos_seq_ = st.pre_pos_seq_ := rfl
@[simp] lemma PackFloorplan_pre_neg_seq (st : SACoreSoftMacro) : (PackFloorplan st).pre_neg_seq_ = st.pre_neg_seq_ := rfl
@[simp] lemma PackFloorplan_pre_area_penalty (st : SACoreSoftMacro) : (PackFloorplan st).pre_area_penalty_ = st.pre_area_penalty_ := rfl
@[simp] lemma PackFloorplan_pre_outline_penalty (st : SACoreSoftMacro) : (PackFloorplan st).pre_outline_penalty_ = st.pre_outline_penalty_ := rfl
@[simp] lemma PackFloorplan_pre_wirelength (st : SACoreSoftMacro) : (PackFloorplan st).pre_wirelength_ = st.pre_wirelength_ := rfl
@[simp] lemma PackFloorplan_pre_guidance_penalty (st : SACoreSoftMacro) : (PackFloorplan st).pre_guidance_penalty_ = st.pre_guidance_penalty_ := rfl
@[simp] lemma PackFloorplan_pre_fence_penalty (st : SACoreSoftMacro) : (PackFloorplan st).pre_fence_penalty_ = st.pre_fence_penalty_ := rfl
@[simp] lemma PackFloorplan_pre_boundary_penalty (st : SACoreSoftMacro) : (PackFloorplan st).pre_boundary_penalty_ = st.pre_boundary_penalty_ := rfl
@[simp] lemma PackFloorplan_pre_notch_penalty (st : SACoreSoftMacro) : (PackFloorplan st).pre_notch_penalty_ = st.pre_notch_penalty_ := rfl
@[simp] lemma PackFloorplan_pre_macro_blockage_penalty (st : SACoreSoftMacro) : (PackFloorplan st).pre_macro_blockage_penalty_ = st.pre_macro_blockage_penalty_ := rfl

/-- Projection lemmas: re-evaluating the penalties never touches the
recorded `pre_` values. -/
@[simp] lemma CalPenalty_pre_macros (st : SACoreSoftMacro) : (CalPenalty st).pre_macros_ = st.pre_macros_ := rfl
@[simp] lemma CalPenalty_pre_pos_seq (st : SACoreSoftMacro) : (CalPenalty st).pre_pos_seq_ = st.pre_pos_seq_ := rfl
@[simp] lemma CalPenalty_pre_neg_seq (st : SACoreSoftMacro) : (CalPenalty st).pre_neg_seq_ = st.pre_neg_seq_ := rfl
@[simp] lemma CalPenalty_pre_area_penalty (st : SACoreSoftMacro) : (CalPenalty st).pre_area_penalty_ = st.pre_area_penalty_ := rfl
@[simp] lemma CalPenalty_pre_outline_penalty (st : SACoreSoftMacro) : (CalPenalty st).pre_outline_penalty_ = st.pre_outline_penalty_ := rfl
@[simp] lemma CalPenalty_pre_wirelength (st : SACoreSoftMacro) : (CalPenalty st).pre_wirelength_ = st.pre_wirelength_ := rfl
@[simp] lemma CalPenalty_pre_guidance_penalty (st : SACoreSoftMacro) : (CalPenalty st).pre_guidance_penalty_ = st.pre_guidance_penalty_ := rfl
@[simp] lemma CalPenalty_pre_fence_penalty (st : SACoreSoftMacro) : (CalPenalty st).pre_fence_penalty_ = st.pre_fence_penalty_ := rfl
@[simp] lemma CalPenalty_pre_boundary_penalty (st : SACoreSoftMacro) : (CalPenalty st).pre_boundary_penalty_ = st.pre_boundary_penalty_ := rfl
@[simp] lemma CalPenalty_pre_notch_penalty (st : SACoreSoftMacro) : (CalPenalty st).pre_notch_penalty_ = st.pre_notch_penalty_ := rfl
@[simp] lemma CalPenalty_pre_macro_blockage_penalty (st : SACoreSoftMacro) : (CalPenalty st).pre_macro_blockage_penalty_ = st.pre_macro_blockage_penalty_ := rfl

/-- Projection lemmas: `Restore` writes each recorded `pre_` value over
the corresponding current one. -/
@[simp] lemma Restore_macros (st : SACoreSoftMacro) : (Restore st).macros_ = st.pre_macros_ := rfl
@[simp] lemma Restore_pos_seq (st : SACoreSoftMacro) : (Restore st).pos_seq_ = st.pre_pos_seq_ := rfl
@[simp] lemma Restore_neg_seq (st : SACoreSoftMacro) : (Restore st).neg_seq_ = st.pre_neg_seq_ := rfl
@[simp] lemma Restore_area_penalty (st : SACoreSoftMacro) : (Restore st).area_penalty_ = st.pre_area_penalty_ := rfl
@[simp] lemma Restore_outline_penalty (st : SACoreSoftMacro) : (Restore st).outline_penalty_ = st.pre_outline_penalty_ := rfl
@[simp] lemma Restore_wirelength (st : SACoreSoftMacro) : (Restore st).wirelength_ = st.pre_wirelength_ := rfl
@[simp] lemma Restore_guidance_penalty (st : SACoreSoftMacro) : (Restore st).guidance_penalty_ = st.pre_guidance_penalty_ := rfl
@[simp] lemma Restore_fence_penalty (st : SACoreSoftMacro) : (Restore st).fence_penalty_ = st.pre_fence_penalty_ := rfl
@[simp] lemma Restore_boundary_penalty (st : SACoreSoftMacro) : (Restore st).boundary_penalty_ = st.pre_boundary_penalty_ := rfl
@[simp] lemma Restore_notch_penalty (st : SACoreSoftMacro) : (Restore st).notch_penalty_ = st.pre_notch_penalty_ := rfl
@[simp] lemma Restore_macro_blockage_penalty (st : SACoreSoftMacro) : (Restore st).macro_blockage_penalty_ = st.pre_macro_blockage_penalty_ := rfl

/-- Rolling back right after a perturbation recovers the macro list, the
sequence pair and all eight penalty terms, for every action of the move
set (shared helper for the reversibility results). -/
lemma Restore_Perturb_frame (st : SACoreSoftMacro) (a : SAAction) :
    (Restore (Perturb st a)).macros_ = st.macros_
    ∧ (Restore (Perturb st a)).pos_seq_ = st.pos_seq_
    ∧ (Restore (Perturb st a)).neg_seq_ = st.neg_seq_
    ∧ (Restore (Perturb st a)).area_penalty_ = st.area_penalty_
    ∧ (Restore (Perturb st a)).outline_penalty_ = st.outline_penalty_
    ∧ (Restore (Perturb st a)).wirelength_ = st.wirelength_
    ∧ (Restore (Perturb st a)).guidance_penalty_ = st.guidance_penalty_
    ∧ (Restore (Perturb st a)).fence_penalty_ = st.fence_penalty_
    ∧ (Restore (Perturb st a)).boundary_penalty_ = st.boundary_penalty_
    ∧ (Restore (Perturb st a)).notch_penalty_ = st.notch_penalty_
    ∧ (Restore (Perturb st a)).macro_blockage_penalty_ = st.macro_blockage_penalty_ := by
  simp [Perturb]


/-- C1: for every macro set and every perturbation action of the move set
(swap, double swap, exchange, resize, shrink), applying the action via
`Perturb` and then calling `Restore` returns every macro to its exact
pre-action position and shape, the sequence pair to its pre-action order,
and every penalty term (boundary, notch, macro-blockage, and all others)
to its exact pre-action value; no action is left partially applied. -/
theorem claim_C1 (st : SACoreSoftMacro) (a : SAAction) :
    (Restore (Perturb st a)).macros_ = st.macros_
    ∧ (Restore (Perturb st a)).pos_seq_ = st.pos_seq_
    ∧ (Restore (Perturb st a)).neg_seq_ = st.neg_seq_
    ∧ (Restore (Perturb st a)).area_penalty_ = st.area_penalty_
    ∧ (Restore (Perturb st a)).outline_penalty_ = st.outline_penalty_
    ∧ (Restore (Perturb st a)).wirelength_ = st.wirelength_
    ∧ (Restore (Perturb st a)).guidance_penalty_ = st.guidance_penalty_
    ∧ (Restore (Perturb st a)).fence_penalty_ = st.fence_penalty_
    ∧ (Restore (Perturb st a)).boundary_penalty_ = st.boundary_penalty_
    ∧ (Restore (Perturb st a)).notch_penalty_ = st.notch_penalty_
    ∧ (Restore (Perturb st a)).macro_blockage_penalty_ = st.macro_blockage_penalty_ :=
  Restore_Perturb_frame st a

/-- C2: in every accept/reject trial with cost difference
`dC = cost(new) - cost(old)`: if `dC ≤ 0` the move is accepted (the
decision does not depend on the random draw, which is universally
quantified); if `dC > 0` the move is accepted iff the uniform draw `r`
is below `expFn (-dC / T)`; and a rejected move restores the exact
pre-perturbation macro list, sequence pair and penalty values. -/
theorem claim_C2 (expFn : ℚ → ℚ) (a : SAAction) (T r : ℚ) (st : SACoreSoftMacro) :
    (CalNormCost (Perturb st a) - CalNormCost st ≤ 0 →
      (TrialStep expFn a T r st).1 = true)
    ∧ (0 < CalNormCost (Perturb st a) - CalNormCost st →
        ((TrialStep expFn a T r st).1 = true ↔
          r < expFn (-(CalNormCost (Perturb st a) - CalNormCost st) / T)))
    ∧ ((TrialStep expFn a T r st).1 = false →
        (TrialStep expFn a T r st).2.macros_ = st.macros_
        ∧ (TrialStep expFn a T r st).2.pos_seq_ = st.pos_seq_
        ∧ (TrialStep expFn a T r st).2.neg_seq_ = st.neg_seq_
        ∧ (TrialStep expFn a T r st).2.area_penalty_ = st.area_penalty_
        ∧ (TrialStep expFn a T r st).2.outline_penalty_ = st.outline_penalty_
        ∧ (TrialStep expFn a T r st).2.wirelength_ = st.wirelength_
        ∧ (TrialStep expFn a T r st).2.guidance_penalty_ = st.guidance_penalty_
        ∧ (TrialStep expFn a T r st).2.fence_penalty_ = st.fence_penalty_
        ∧ (TrialStep expFn a T r st).2.boundary_penalty_ = st.boundary_penalty_
        ∧ (TrialStep expFn a T r st).2.notch_penalty_ = st.notch_penalty_
        ∧ (TrialStep expFn a T r st).2.macro_blockage_penalty_ = st.macro_blockage_penalty_) := by
  refine ⟨?_, ?_, ?_⟩
  · intro h
    simp [TrialStep, acceptMove, h]
  · intro h
    have h2 : ¬ (CalNormCost (Perturb st a) - CalNormCost st ≤ 0) := not_le.mpr h
    simp [TrialStep, acceptMove, h2]
  · intro h
    have h2 : (TrialStep expFn a T r st).2 = Restore (Perturb st a) := by
      simp only [TrialStep] at h ⊢
      simp [h]
    rw [h2]
    exact Restore_Perturb_frame st a

/-- C2 witness: at a concrete engine state, action, temperature and draw,
the downhill hypothesis evaluates and the trial is accepted. -/
theorem claim_C2_witness :
    (TrialStep (fun _ => (1:ℚ)/2) (SAAction.posSwap 0 1) 1 0 defaultSACoreSoftMacro).1 = true :=
  (claim_C2 (fun _ => (1:ℚ)/2) (SAAction.posSwap 0 1) 1 0 defaultSACoreSoftMacro).1
    (by norm_num [Perturb, CalPenalty, PackFloorplan, applyAction, savePre, swapL, CalNormCost,
      calcAreaPenalty, calcOutlinePenalty, calcWirelength, calcGuidancePenalty, calcFencePenalty,
      calcBoundaryPenalty, calcNotchPenalty, calcMacroBlockagePenalty, defaultSACoreSoftMacro])

/-- C10: a default-constructed `SACoreSoftMacro` has boundary weight,
macro-blockage weight and resize probability equal to `0.0`, and every
boundary, notch and macro-blockage penalty value (current, previous and
normalization constant) equal to `0.0`, so these penalty terms contribute
nothing to the normalized weighted sum of `CalNormCost`. -/
theorem claim_C10 :
    defaultSACoreSoftMacro.boundary_weight_ = 0
    ∧ defaultSACoreSoftMacro.macro_blockage_weight_ = 0
    ∧ defaultSACoreSoftMacro.resize_prob_ = 0
    ∧ defaultSACoreSoftMacro.boundary_penalty_ = 0
    ∧ defaultSACoreSoftMacro.notch_penalty_ = 0
    ∧ defaultSACoreSoftMacro.macro_blockage_penalty_ = 0
    ∧ defaultSACoreSoftMacro.pre_boundary_penalty_ = 0
    ∧ defaultSACoreSoftMacro.pre_notch_penalty_ = 0
    ∧ defaultSACoreSoftMacro.pre_macro_blockage_penalty_ = 0
    ∧ defaultSACoreSoftMacro.norm_boundary_penalty_ = 0
    ∧ defaultSACoreSoftMacro.norm_notch_penalty_ = 0
    ∧ defaultSACoreSoftMacro.norm_macro_blockage_penalty_ = 0
    ∧ defaultSACoreSoftMacro.boundary_weight_ * defaultSACoreSoftMacro.boundary_penalty_
        / defaultSACoreSoftMacro.norm_boundary_penalty_ = 0
    ∧ defaultSACoreSoftMacro.notch_weight_ * defaultSACoreSoftMacro.notch_penalty_
        / defaultSACoreSoftMacro.norm_notch_penalty_ = 0
    ∧ defaultSACoreSoftMacro.macro_blockage_weight_ * defaultSACoreSoftMacro.macro_blockage_penalty_
        / defaultSACoreSoftMacro.norm_macro_blockage_penalty_ = 0 := by
  refine ⟨rfl, rfl, rfl, rfl, rfl, rfl, rfl, rfl, rfl, rfl, rfl, rfl, ?_, ?_, ?_⟩ <;>
    norm_num [defaultSACoreSoftMacro]

/-- C9: `SetBlockages` replaces the stored blockage list with exactly the
argument vector and modifies no other engine state: every macro position
and shape, every weight, every threshold, and every stored penalty value
(current, previous and normalization constant) is unchanged. -/
theorem claim_C9 (st : SACoreSoftMacro) (bs : List Rect) :
    (SetBlockages st bs).blockages_ = bs
    ∧ (SetBlockages st bs).outline_width_ = st.outline_width_
    ∧ (SetBlockages st bs).outline_height_ = st.outline_height_
    ∧ (SetBlockages st bs).macros_ = st.macros_
    ∧ (SetBlockages st bs).pos_seq_ = st.pos_seq_
    ∧ (SetBlockages st bs).neg_seq_ = st.neg_seq_
    ∧ (SetBlockages st bs).nets_ = st.nets_
    ∧ (SetBlockages st bs).guides_ = st.guides_
    ∧ (SetBlockages st bs).fences_ = st.fences_
    ∧ (SetBlockages st bs).area_weight_ = st.area_weight_
    ∧ (SetBlockages st bs).outline_weight_ = st.outline_weight_
    ∧ (SetBlockages st bs).wirelength_weight_ = st.wirelength_weight_
    ∧ (SetBlockages st bs).guidance_weight_ = st.guidance_weight_
    ∧ (SetBlockages st bs).fence_weight_ = st.fence_weight_
    ∧ (SetBlockages st bs).boundary_weight_ = st.boundary_weight_
    ∧ (SetBlockages st bs).macro_blockage_weight_ = st.macro_blockage_weight_
    ∧ (SetBlockages st bs).notch_weight_ = st.notch_weight_
    ∧ (SetBlockages st bs).notch_h_th_ = st.notch_h_th_
    ∧ (SetBlockages st bs).notch_v_th_ = st.notch_v_th_
    ∧ (SetBlockages st bs).adjust_h_th_ = st.adjust_h_th_
    ∧ (SetBlockages st bs).adjust_v_th_ = st.adjust_v_th_
    ∧ (SetBlockages st bs).resize_prob_ = st.resize_prob_
    ∧ (SetBlockages st bs).area_penalty_ = st.area_penalty_
    ∧ (SetBlockages st bs).outline_penalty_ = st.outline_penalty_
    ∧ (SetBlockages st bs).wirelength_ = st.wirelength_
    ∧ (SetBlockages st bs).guidance_penalty_ = st.guidance_penalty_
    ∧ (SetBlockages st bs).fence_penalty_ = st.fence_penalty_
    ∧ (SetBlockages st bs).boundary_penalty_ = st.boundary_penalty_
    ∧ (SetBlockages st bs).notch_penalty_ = st.notch_penalty_
    ∧ (SetBlockages st bs).macro_blockage_penalty_ = st.macro_blockage_penalty_
    ∧ (SetBlockages st bs).pre_macros_ = st.pre_macros_
    ∧ (SetBlockages st bs).pre_pos_seq_ = st.pre_pos_seq_
    ∧ (SetBlockages st bs).pre_neg_seq_ = st.pre_neg_seq_
    ∧ (SetBlockages st bs).pre_area_penalty_ = st.pre_area_penalty_
    ∧ (SetBlockages st bs).pre_outline_penalty_ = st.pre_outline_penalty_
    ∧ (SetBlockages st bs).pre_wirelength_ = st.pre_wirelength_
    ∧ (SetBlockages st bs).pre_guidance_penalty_ = st.pre_guidance_penalty_
    ∧ (SetBlockages st bs).pre_fence_penalty_ = st.pre_fence_penalty_
    ∧ (SetBlockages st bs).pre_boundary_penalty_ = st.pre_boundary_penalty_
    ∧ (SetBlockages st bs).pre_notch_penalty_ = st.pre_notch_penalty_
    ∧ (SetBlockages st bs).pre_macro_blockage_penalty_ = st.pre_macro_blockage_penalty_
    ∧ (SetBlockages st bs).norm_area_penalty_ = st.norm_area_penalty_
    ∧ (SetBlockages st bs).norm_outline_penalty_ = st.norm_outline_penalty_
    ∧ (SetBlockages st bs).norm_wirelength_ = st.norm_wirelength_
    ∧ (SetBlockages st bs).norm_guidance_penalty_ = st.norm_guidance_penalty_
    ∧ (SetBlockages st bs).norm_fence_penalty_ = st.norm_fence_penalty_
    ∧ (SetBlockages st bs).norm_boundary_penalty_ = st.norm_boundary_penalty_
    ∧ (SetBlockages st bs).norm_notch_penalty_ = st.norm_notch_penalty_
    ∧ (SetBlockages st bs).norm_macro_blockage_penalty_ = st.norm_macro_blockage_penalty_
  := ⟨rfl, rfl, rfl, rfl, rfl, rfl, rfl, rfl, rfl, rfl, rfl, rfl, rfl, rfl, rfl, rfl, rfl, rfl, rfl, rfl, rfl, rfl, rfl, rfl, rfl, rfl, rfl, rfl, rfl, rfl, rfl, rfl, rfl, rfl, rfl, rfl, rfl, rfl, rfl, rfl, rfl, rfl, rfl, rfl, rfl, rfl, rfl, rfl, rfl⟩


/-- The shape list of a soft macro is untouched by `selectShape`. -/
lemma selectShape_shapes (m : SoftMacro) (i : Nat) :
    (m.selectShape i).shapes = m.shapes := by
  unfold SoftMacro.selectShape
  split <;> rfl

/-- `selectShape` preserves well-formedness: the new shape index is
reduced modulo the (nonempty) list length. -/
lemma selectShape_wf {A : ℚ} {m : SoftMacro} (h : SoftMacro.wfShapes A m) (i : Nat) :
    SoftMacro.wfShapes A (m.selectShape i) := by
  obtain ⟨h1, h2, h3⟩ := h
  have hlen : m.shapes.length ≠ 0 := fun hh => h1 (List.length_eq_zero.mp hh)
  unfold SoftMacro.selectShape
  rw [if_neg hlen]
  exact ⟨h1, Nat.mod_lt _ (Nat.pos_of_ne_zero hlen), h3⟩

/-- A sequence of `selectShape` actions leaves the candidate list
unchanged. -/
lemma foldl_selectShape_shapes :
    ∀ (is : List Nat) (m : SoftMacro),
      (is.foldl SoftMacro.selectShape m).shapes = m.shapes := by
  intro is
  induction is with
  | nil => intro m; rfl
  | cons i is ih => intro m; rw [List.foldl_cons, ih, selectShape_shapes]

/-- A sequence of `selectShape` actions preserves well-formedness. -/
lemma foldl_selectShape_wf {A : ℚ} :
    ∀ (is : List Nat) (m : SoftMacro), SoftMacro.wfShapes A m →
      SoftMacro.wfShapes A (is.foldl SoftMacro.selectShape m) := by
  intro is
  induction is with
  | nil => intro m h; exact h
  | cons i is ih => intro m h; exact ih _ (selectShape_wf h i)

/-- In a well-formed soft macro the current shape is an element of the
candidate list. -/
lemma wf_currentShape_mem {A : ℚ} {m : SoftMacro} (h : SoftMacro.wfShapes A m) :
    m.currentShape ∈ m.shapes := by
  obtain ⟨h1, h2, h3⟩ := h
  unfold SoftMacro.currentShape
  rw [List.getD_eq_getElem?_getD, List.getElem?_eq_getElem h2]
  simp

/-- A well-formed soft macro has exactly the required area. -/
lemma wf_area {A : ℚ} {m : SoftMacro} (h : SoftMacro.wfShapes A m) : m.area = A := by
  have h2 := h.2.2 _ (wf_currentShape_mem h)
  simpa [SoftMacro.area, SoftMacro.width, SoftMacro.height] using h2

/-- C4: for a well-formed soft macro, every candidate `(width, height)`
pair keeps the common product `A` (the required area) after any sequence
of `Resize` shape selections, the current shape stays an element of the
original candidate list, and the macro's area equals `A` exactly both
before and after the sequence. -/
theorem claim_C4 (A : ℚ) (m : SoftMacro) (is : List Nat) (h : SoftMacro.wfShapes A m) :
    (∀ p ∈ (is.foldl SoftMacro.selectShape m).shapes, p.1 * p.2 = A)
    ∧ (is.foldl SoftMacro.selectShape m).currentShape ∈ m.shapes
    ∧ m.area = A
    ∧ (is.foldl SoftMacro.selectShape m).area = A := by
  have hw := foldl_selectShape_wf is m h
  refine ⟨hw.2.2, ?_, wf_area h, wf_area hw⟩
  have hm := wf_currentShape_mem hw
  rwa [foldl_selectShape_shapes] at hm

/-- C4 witness: the spec scenario — one soft macro with required area 400
and candidate shapes `{(20,20),(10,40),(40,10)}`; after the resize
sequence `[1, 2, 0]` its area is still exactly 400. -/
theorem claim_C4_witness :
    SoftMacro.wfShapes 400 mEx
    ∧ ([1, 2, 0].foldl SoftMacro.selectShape mEx).area = 400 := by
  have h : SoftMacro.wfShapes 400 mEx := by
    refine ⟨by simp [mEx], by simp [mEx], by norm_num [mEx]⟩
  exact ⟨h, (claim_C4 400 mEx [1, 2, 0] h).2.2.2⟩

/-- The normalization constant chosen by `setNorm` is positive whenever
the observed raw value is non-negative. -/
lemma setNorm_pos {r : ℚ} (h : 0 ≤ r) : 0 < setNorm r := by
  by_cases hr : r = 0
  · simp [setNorm, hr]
  · rw [setNorm, if_neg hr]
    exact lt_of_le_of_ne h (Ne.symm hr)

/-- C6: when the normalization constants are set from the observed raw
penalty values, a term whose raw value is exactly zero gets the default
constant 1, and every constant is strictly positive (hence nonzero), so
the divisors of the weighted sum `CalNormCost` are never zero. -/
theorem claim_C6 (st : SACoreSoftMacro)
    (h : 0 ≤ st.area_penalty_ ∧ 0 ≤ st.outline_penalty_ ∧ 0 ≤ st.wirelength_
      ∧ 0 ≤ st.guidance_penalty_ ∧ 0 ≤ st.fence_penalty_ ∧ 0 ≤ st.boundary_penalty_
      ∧ 0 ≤ st.notch_penalty_ ∧ 0 ≤ st.macro_blockage_penalty_) :
    (0 < (SetNormValues st).norm_area_penalty_
      ∧ 0 < (SetNormValues st).norm_outline_penalty_
      ∧ 0 < (SetNormValues st).norm_wirelength_
      ∧ 0 < (SetNormValues st).norm_guidance_penalty_
      ∧ 0 < (SetNormValues st).norm_fence_penalty_
      ∧ 0 < (SetNormValues st).norm_boundary_penalty_
      ∧ 0 < (SetNormValues st).norm_notch_penalty_
      ∧ 0 < (SetNormValues st).norm_macro_blockage_penalty_)
    ∧ (st.area_penalty_ = 0 → (SetNormValues st).norm_area_penalty_ = 1)
    ∧ (st.outline_penalty_ = 0 → (SetNormValues st).norm_outline_penalty_ = 1)
    ∧ (st.wirelength_ = 0 → (SetNormValues st).norm_wirelength_ = 1)
    ∧ (st.guidance_penalty_ = 0 → (SetNormValues st).norm_guidance_penalty_ = 1)
    ∧ (st.fence_penalty_ = 0 → (SetNormValues st).norm_fence_penalty_ = 1)
    ∧ (st.boundary_penalty_ = 0 → (SetNormValues st).norm_boundary_penalty_ = 1)
    ∧ (st.notch_penalty_ = 0 → (SetNormValues st).norm_notch_penalty_ = 1)
    ∧ (st.macro_blockage_penalty_ = 0 →
        (SetNormValues st).norm_macro_blockage_penalty_ = 1) := by
  obtain ⟨h1, h2, h3, h4, h5, h6, h7, h8⟩ := h
  refine ⟨⟨setNorm_pos h1, setNorm_pos h2, setNorm_pos h3, setNorm_pos h4,
    setNorm_pos h5, setNorm_pos h6, setNorm_pos h7, setNorm_pos h8⟩,
    ?_, ?_, ?_, ?_, ?_, ?_, ?_, ?_⟩ <;>
    (intro hz; simp [SetNormValues, setNorm, hz])

/-- C6 witness: at the default-constructed state every raw penalty is
zero, so every normalization constant defaults to 1 and is positive. -/
theorem claim_C6_witness :
    0 < (SetNormValues defaultSACoreSoftMacro).norm_area_penalty_ :=
  (claim_C6 defaultSACoreSoftMacro
    ⟨le_refl 0, le_refl 0, le_refl 0, le_refl 0, le_refl 0, le_refl 0, le_refl 0,
      le_refl 0⟩).1.1

/-- Scaling every weight by `s` scales the normalized weighted sum by
`s`. -/
lemma CalNormCost_scaleWeights (s : ℚ) (st : SACoreSoftMacro) :
    CalNormCost (scaleWeights s st) = s * CalNormCost st := by
  simp only [CalNormCost, scaleWeights]
  ring

/-- C7: for every positive constant `s` and every pair of candidate
layouts `A`, `B` (with their fixed normalization state), scaling every
per-term weight by `s` preserves the ordering of the total cost
`CalNormCost`. -/
theorem claim_C7 (s : ℚ) (A B : SACoreSoftMacro) (h : 0 < s) :
    (CalNormCost (scaleWeights s A) < CalNormCost (scaleWeights s B) ↔
      CalNormCost A < CalNormCost B) := by
  rw [CalNormCost_scaleWeights, CalNormCost_scaleWeights]
  exact mul_lt_mul_left h

/-- C7 witness: the ordering equivalence instantiated at the concrete
scale 2 and a concrete pair of states. -/
theorem claim_C7_witness :
    (0:ℚ) < 2
    ∧ (CalNormCost (scaleWeights 2 defaultSACoreSoftMacro) <
          CalNormCost (scaleWeights 2 defaultSACoreSoftMacro) ↔
        CalNormCost defaultSACoreSoftMacro < CalNormCost defaultSACoreSoftMacro) :=
  ⟨by norm_num, claim_C7 2 defaultSACoreSoftMacro defaultSACoreSoftMacro (by norm_num)⟩



/-- For a nonempty candidate list, the boolean area-consistency check
holds iff every candidate pair has the same product as the first one. -/
lemma consistentShapes_iff {m : SoftMacro} (h : m.shapes ≠ []) :
    consistentShapes m = true ↔
      ∀ q ∈ m.shapes,
        q.1 * q.2 = (m.shapes.headD (0, 0)).1 * (m.shapes.headD (0, 0)).2 := by
  cases hs : m.shapes with
  | nil => exact absurd hs h
  | cons p rest =>
    simp [consistentShapes, hs, List.all_eq_true]

/-- C5: construction fails fast exactly for structurally impossible
inputs: `ValidateCtor` succeeds iff both outline dimensions are positive,
every soft macro has a nonempty candidate-shape list of consistent areas,
and every weight is non-negative.  A merely infeasible configuration
(total macro area larger than the outline area) does not appear in the
right-hand side, so it is never rejected at construction. -/
theorem claim_C5 (p : SAParams) :
    ValidateCtor p = .ok () ↔
      (0 < p.outline_width ∧ 0 < p.outline_height
        ∧ (∀ m ∈ p.macros, m.shapes ≠ []
            ∧ ∀ q ∈ m.shapes,
                q.1 * q.2 = (m.shapes.headD (0, 0)).1 * (m.shapes.headD (0, 0)).2)
        ∧ ∀ w ∈ weightList p, 0 ≤ w) := by
  unfold ValidateCtor
  split_ifs with h1 h2 h3 h4
  · refine iff_of_false (by simp) ?_
    rintro ⟨hw, hh, -, -⟩
    rcases h1 with h | h
    · exact absurd hw (not_lt.mpr h)
    · exact absurd hh (not_lt.mpr h)
  · refine iff_of_false (by simp) ?_
    rintro ⟨-, -, hm, -⟩
    obtain ⟨m, hmem, hempty⟩ := List.any_eq_true.mp h2
    exact (hm m hmem).1 (List.isEmpty_iff.mp hempty)
  · refine iff_of_false (by simp) ?_
    rintro ⟨-, -, hm, -⟩
    obtain ⟨m, hmem, hb⟩ := List.any_eq_true.mp h3
    have hfalse : consistentShapes m = false := by simpa using hb
    have htrue := (consistentShapes_iff (hm m hmem).1).mpr (hm m hmem).2
    rw [hfalse] at htrue
    exact Bool.false_ne_true htrue
  · refine iff_of_false (by simp) ?_
    rintro ⟨-, -, -, hw⟩
    obtain ⟨w, hmem, hd⟩ := List.any_eq_true.mp h4
    exact absurd (hw w hmem) (not_le.mpr (of_decide_eq_true hd))
  · refine iff_of_true rfl ?_
    rcases not_or.mp h1 with ⟨ha, hb⟩
    have h2' : ∀ m ∈ p.macros, m.shapes ≠ [] := by
      intro m hm heq
      exact h2 (List.any_eq_true.mpr ⟨m, hm, by simp [heq]⟩)
    have h3' : ∀ m ∈ p.macros, consistentShapes m = true := by
      intro m hm
      cases hcb : consistentShapes m with
      | true => rfl
      | false => exact absurd (List.any_eq_true.mpr ⟨m, hm, by simp [hcb]⟩) h3
    have h4' : ∀ w ∈ weightList p, 0 ≤ w := by
      intro w hw
      by_contra hneg
      exact h4 (List.any_eq_true.mpr ⟨w, hw, decide_eq_true (not_le.mp hneg)⟩)
    exact ⟨not_le.mp ha, not_le.mp hb,
      fun m hm => ⟨h2' m hm, (consistentShapes_iff (h2' m hm)).mp (h3' m hm)⟩, h4'⟩

/-- C5 witness: a concrete structurally valid argument pack is accepted
by construction. -/
theorem claim_C5_witness : ValidateCtor pEx = .ok () :=
  (claim_C5 pEx).mpr (by
    norm_num [pEx, mEx, weightList]
    exact ⟨by simp, by rintro a b (⟨rfl, rfl⟩ | ⟨rfl, rfl⟩ | ⟨rfl, rfl⟩) <;> norm_num⟩)


/-- Each trial appends exactly one cost to the trajectory. -/
lemma doTrial_traj_len (e : ℚ → ℚ) (p : SAParams) (T : ℚ) (rs : RunState) :
    (doTrial e p T rs).trajectory.length = rs.trajectory.length + 1 := rfl

/-- The tracked best cost never increases over a trial. -/
lemma doTrial_best_le (e : ℚ → ℚ) (p : SAParams) (T : ℚ) (rs : RunState) :
    (doTrial e p T rs).best_cost ≤ rs.best_cost :=
  min_le_left _ _

/-- Taking the minimum with a freshly appended cost keeps the best cost
below every trajectory entry. -/
lemma best_inv_step {b cost : ℚ} {tr : List ℚ} (h : ∀ c ∈ tr, b ≤ c) :
    ∀ c ∈ cost :: tr, min b cost ≤ c := by
  intro c hc
  rcases List.mem_cons.mp hc with h1 | h1
  · exact h1 ▸ min_le_right _ _
  · exact le_trans (min_le_left _ _) (h c h1)

/-- One trial preserves the best-cost invariant over the trajectory. -/
lemma doTrial_inv (e : ℚ → ℚ) (p : SAParams) (T : ℚ) (rs : RunState)
    (h : ∀ c ∈ rs.trajectory, rs.best_cost ≤ c) :
    ∀ c ∈ (doTrial e p T rs).trajectory, (doTrial e p T rs).best_cost ≤ c :=
  best_inv_step h

/-- One temperature level appends exactly `n` costs to the trajectory. -/
lemma doLevel_len (e : ℚ → ℚ) (p : SAParams) (T : ℚ) :
    ∀ (n : Nat) (rs : RunState),
      (doLevel e p T n rs).trajectory.length = n + rs.trajectory.length := by
  intro n
  induction n with
  | zero => intro rs; simp [doLevel]
  | succ n ih =>
    intro rs
    show (doLevel e p T n (doTrial e p T rs)).trajectory.length = n + 1 + rs.trajectory.length
    rw [ih, doTrial_traj_len]
    omega

/-- The best cost never increases over a temperature level. -/
lemma doLevel_best_le (e : ℚ → ℚ) (p : SAParams) (T : ℚ) :
    ∀ (n : Nat) (rs : RunState), (doLevel e p T n rs).best_cost ≤ rs.best_cost := by
  intro n
  induction n with
  | zero => intro rs; exact le_refl _
  | succ n ih =>
    intro rs
    exact le_trans (ih (doTrial e p T rs)) (doTrial_best_le e p T rs)

/-- One temperature level preserves the best-cost invariant. -/
lemma doLevel_inv (e : ℚ → ℚ) (p : SAParams) (T : ℚ) :
    ∀ (n : Nat) (rs : RunState), (∀ c ∈ rs.trajectory, rs.best_cost ≤ c) →
      ∀ c ∈ (doLevel e p T n rs).trajectory, (doLevel e p T n rs).best_cost ≤ c := by
  intro n
  induction n with
  | zero => intro rs h; exact h
  | succ n ih =>
    intro rs h
    exact ih (doTrial e p T rs) (doTrial_inv e p T rs h)

/-- The outer loop appends exactly `n * num_perturb_per_step` costs. -/
lemma doSteps_len (e : ℚ → ℚ) (p : SAParams) :
    ∀ (n : Nat) (rs : RunState),
      (doSteps e p n rs).trajectory.length
        = n * p.num_perturb_per_step + rs.trajectory.length := by
  intro n
  induction n with
  | zero => intro rs; simp [doSteps]
  | succ n ih =>
    intro rs
    show (doSteps e p n _).trajectory.length = (n + 1) * p.num_perturb_per_step + _
    rw [ih, doLevel_len]
    ring

/-- The best cost never increases over the outer loop. -/
lemma doSteps_best_le (e : ℚ → ℚ) (p : SAParams) :
    ∀ (n : Nat) (rs : RunState), (doSteps e p n rs).best_cost ≤ rs.best_cost := by
  intro n
  induction n with
  | zero => intro rs; exact le_refl _
  | succ n ih =>
    intro rs
    exact le_trans (ih _) (doLevel_best_le e p _ p.num_perturb_per_step rs)

/-- The outer loop preserves the best-cost invariant. -/
lemma doSteps_inv (e : ℚ → ℚ) (p : SAParams) :
    ∀ (n : Nat) (rs : RunState), (∀ c ∈ rs.trajectory, rs.best_cost ≤ c) →
      ∀ c ∈ (doSteps e p n rs).trajectory, (doSteps e p n rs).best_cost ≤ c := by
  intro n
  induction n with
  | zero => intro rs h; exact h
  | succ n ih =>
    intro rs h
    exact ih _ (doLevel_inv e p _ p.num_perturb_per_step rs h)

/-- Unfolding of `Run` into the outer loop started from the initialized
engine state. -/
lemma Run_eq (e : ℚ → ℚ) (p : SAParams) :
    Run e p = doSteps e p p.max_num_step
      ⟨Initialize (initState p), p.seed, (Initialize (initState p)).macros_,
        CalNormCost (Initialize (initState p)), []⟩ := rfl

/-- C8: every run terminates by construction (`Run` is a total function)
and completes after exactly `max_num_step` temperature levels of
`num_perturb_per_step` trials each — the trajectory records exactly
`max_num_step * num_perturb_per_step` trial costs for every input, with
no early exit and no failure path — and the returned best cost is a
lower bound of every visited cost, including the initial one. -/
theorem claim_C8 (e : ℚ → ℚ) (p : SAParams) :
    (Run e p).trajectory.length = p.max_num_step * p.num_perturb_per_step
    ∧ (∀ c ∈ (Run e p).trajectory, (Run e p).best_cost ≤ c)
    ∧ (Run e p).best_cost ≤ CalNormCost (Initialize (initState p)) := by
  refine ⟨?_, ?_, ?_⟩
  · rw [Run_eq, doSteps_len]
    rfl
  · rw [Run_eq]
    exact doSteps_inv e p p.max_num_step _ (by intro c hc; exact absurd hc (List.not_mem_nil c))
  · rw [Run_eq]
    exact doSteps_best_le e p p.max_num_step _

/-- C3: a run is a deterministic function of its constructor arguments:
two runs with equal argument packs (same outline, macros, weights,
hyperparameters and seed) produce identical final states, identical best
layouts and identical cost trajectories. -/
theorem claim_C3 (expFn : ℚ → ℚ) (p₁ p₂ : SAParams) (h : p₁ = p₂) :
    (Run expFn p₁).best_macros = (Run expFn p₂).best_macros
    ∧ (Run expFn p₁).trajectory = (Run expFn p₂).trajectory
    ∧ (Run expFn p₁).st = (Run expFn p₂).st
    ∧ (Run expFn p₁).best_cost = (Run expFn p₂).best_cost := by
  subst h
  exact ⟨rfl, rfl, rfl, rfl⟩

/-- C3 witness: two runs constructed from the same concrete argument pack
(seed included) coincide. -/
theorem claim_C3_witness :
    (Run (fun _ => (1:ℚ)/2) pEx).best_macros = (Run (fun _ => (1:ℚ)/2) pEx).best_macros
    ∧ (Run (fun _ => (1:ℚ)/2) pEx).trajectory = (Run (fun _ => (1:ℚ)/2) pEx).trajectory :=
  ⟨(claim_C3 (fun _ => (1:ℚ)/2) pEx pEx rfl).1, (claim_C3 (fun _ => (1:ℚ)/2) pEx pEx rfl).2.1⟩


end Mpl
